import Mathlib

/- Shallow embedding of src/downloader.py (class GoogleDriveDownloader).

   The remote Drive service is modelled by the structure `Remote`: each remote
   call the script issues (files().get, files().list, export_media, get_media,
   get_folder_id) is a field returning its result, with `none` standing for a
   call that raises an exception.  The local filesystem is the structure `FS`
   (a set of existing directories and a partial map from paths to byte lists).
   Outcomes of the OS calls os.makedirs, open(...,"wb") and the post-write
   os.path.exists check are supplied by the oracle structure `Env`; the
   post-write existence check is an oracle because the script uses it only to
   choose which message to print (lines 192-196), and its purpose in the source
   is to detect OS-level anomalies that the in-model write semantics cannot
   produce.

   Every remote call, mkdir call, write and printed status message is recorded
   in order as an `Event`, so temporal claims (what was called before what, and
   which messages distinguish which outcome) are claims about the event list.

   File names coming from Drive are treated as leaf names, so the path
   computations os.path.join(local_path, file_name) (line 265) and
   os.path.join(os.path.dirname(download_path), file_name) (line 172) are
   embedded with the pair type `Path` of a directory and a leaf.  The
   os.path.dirname call applied to the user-supplied destination string
   (line 220) is embedded by `pyDirname` on strings.

   download_file (lines 136-202) performs exactly one filesystem write; it is
   returned as the `write` field of its result and applied to the filesystem
   state by the download loop of download_folder (lines 260-273).

   Not modelled: the not-authenticated guard of lines 212-213 (the model
   always carries a Remote), and the two purely informational path echoes of
   lines 216-217, which branch on nothing and influence nothing. -/

namespace GDrive

/-- A file descriptor as returned by the Drive listing (fields id, name,
mimeType, size of lines 130). -/
structure RemoteFile where
  id : String
  name : String
  mimeType : String
  size : Option Nat
  deriving DecidableEq, Repr

/-- A destination path: a directory part and a leaf name. -/
structure Path where
  dir : String
  leaf : String
  deriving DecidableEq, Repr

/-- Local filesystem state: which directories exist, and the byte content of
the files that exist. -/
structure FS where
  dirs : String → Bool
  files : Path → Option (List Nat)

/-- The remote Drive service.  `none` models a call that raises.
`get_folder_id` abstracts lines 84-115 including the interactive choice among
multiple matches: it returns the id finally produced, or `none` when no folder
matches. -/
structure Remote where
  get_folder_id : String → Option String
  list_files_in_folder : String → List RemoteFile
  files_get : String → Option String
  get_media : String → Option (List Nat)
  export_media : String → String → Option (List Nat)

/-- Oracle for the OS calls: whether os.makedirs on a missing directory
raises, whether open(path, "wb") raises, and what the post-write
os.path.exists check answers. -/
structure Env where
  mkdirFails : String → Bool
  writeFails : Path → Bool
  verifyExists : Path → Bool

/-- One observable step of the run: a remote call, an OS call, or a printed
status message. -/
inductive Event where
  | getMetadata (fileId : String)
  | exportMediaCall (fileId exportMime : String)
  | getMediaCall (fileId : String)
  | writeCall (p : Path)
  | savedMsg (p : Path)
  | notFoundAtMsg (p : Path)
  | skipMsg (name : String)
  | errorMsg (name : String)
  | lookupCall (name : String)
  | listCall (folderId : String)
  | mkdirCall (dir : String)
  | parentMissingMsg (dir : String)
  | createdParentMsg
  | failedParentMsg
  | targetReadyMsg
  | failedTargetMsg
  | folderNotFoundMsg (ident : String)
  | downloadingFromMsg (folderId : String)
  | noFilesMsg
  | foundMsg (n : Nat)
  | progressMsg (name : String)
  | downloadedMsg (name : String)
  | summaryMsg (succeeded total : Nat)
  deriving DecidableEq, Repr

/-- The attempted/succeeded pair presented by the final summary print
(line 273). -/
structure SyncResult where
  attempted : Nat
  succeeded : Nat
  deriving DecidableEq, Repr

/-- Does the character list `s` start with the character list `p`? -/
def listBeginsWith : List Char → List Char → Bool
  | _, [] => true
  | [], _ :: _ => false
  | c :: cs, p :: ps => c == p && listBeginsWith cs ps

/-- Embedding of Python str.startswith. -/
def strStartsWith (s p : String) : Bool :=
  listBeginsWith s.toList p.toList

/-- Embedding of Python str.endswith. -/
def strEndsWith (s p : String) : Bool :=
  listBeginsWith s.toList.reverse p.toList.reverse

/-- Embedding of Python str.isalnum restricted to ASCII: nonempty and all
characters alphanumeric (Drive identifiers are ASCII). -/
def pyIsAlnum (s : String) : Bool :=
  !s.isEmpty && s.toList.all Char.isAlphanum

/-- Embedding of posixpath.dirname: the text before the final slash, with
trailing slashes of that head stripped unless the head is all slashes. -/
def pyDirname (p : String) : String :=
  let cs := p.toList
  let tailLen := (cs.reverse.takeWhile (fun c => c != '/')).length
  let head := cs.take (cs.length - tailLen)
  if head.isEmpty then ""
  else if head.all (fun c => c == '/') then String.mk head
  else String.mk ((head.reverse.dropWhile (fun c => c == '/')).reverse)

/-- The export_formats dict of lines 152-157: native mime type to export mime
type. -/
def export_formats (mime_type : String) : Option String :=
  if mime_type = "application/vnd.google-apps.document" then
    some "application/vnd.openxmlformats-officedocument.wordprocessingml.document"
  else if mime_type = "application/vnd.google-apps.spreadsheet" then
    some "application/vnd.openxmlformats-officedocument.spreadsheetml.sheet"
  else if mime_type = "application/vnd.google-apps.presentation" then
    some "application/vnd.openxmlformats-officedocument.presentationml.presentation"
  else if mime_type = "application/vnd.google-apps.drawing" then
    some "image/png"
  else none

/-- The extensions dict of lines 163-168: export mime type to file
extension. -/
def extensions (export_mime_type : String) : Option String :=
  if export_mime_type = "application/vnd.openxmlformats-officedocument.wordprocessingml.document" then
    some ".docx"
  else if export_mime_type = "application/vnd.openxmlformats-officedocument.spreadsheetml.sheet" then
    some ".xlsx"
  else if export_mime_type = "application/vnd.openxmlformats-officedocument.presentationml.presentation" then
    some ".pptx"
  else if export_mime_type = "image/png" then
    some ".png"
  else none

/-- Result of download_file: its boolean return value, the events it emitted,
and the single filesystem write it performed, if any. -/
structure DLResult where
  ret : Bool
  events : List Event
  write : Option (Path × List Nat)
  deriving DecidableEq, Repr

/-- Lines 188-198: write the buffered bytes, then check os.path.exists and
print the corresponding message; an exception in open/write is caught by the
handler of line 200. -/
def write_and_verify (env : Env) (file_name : String) (download_path : Path)
    (content : List Nat) (evs : List Event) : DLResult :=
  if env.writeFails download_path then
    ⟨false, evs ++ [Event.errorMsg file_name], none⟩
  else
    ⟨true,
      evs ++ [Event.writeCall download_path,
        if env.verifyExists download_path then Event.savedMsg download_path
        else Event.notFoundAtMsg download_path],
      some (download_path, content)⟩

/-- Lines 136-202: download_file.  The metadata fetch is fresh (line 147);
a native-document mime type is routed to export_media with the mapped format
and possibly a rewritten leaf name (lines 151-172), an unmapped native type is
skipped (lines 173-175), any other file is fetched with get_media (line 178).
Any raised exception yields the return value False (lines 200-202). -/
def download_file (r : Remote) (env : Env) (file_id file_name : String)
    (download_path : Path) : DLResult :=
  match r.files_get file_id with
  | none => ⟨false, [Event.getMetadata file_id, Event.errorMsg file_name], none⟩
  | some mime_type =>
    if strStartsWith mime_type "application/vnd.google-apps." then
      match export_formats mime_type with
      | none => ⟨false, [Event.getMetadata file_id, Event.skipMsg file_name], none⟩
      | some export_mime_type =>
        let ext := (extensions export_mime_type).getD ""
        let new_name := if strEndsWith file_name ext then file_name else file_name ++ ext
        let new_path :=
          if strEndsWith file_name ext then download_path
          else Path.mk download_path.dir new_name
        match r.export_media file_id export_mime_type with
        | none =>
          ⟨false, [Event.getMetadata file_id, Event.exportMediaCall file_id export_mime_type,
            Event.errorMsg new_name], none⟩
        | some content =>
          write_and_verify env new_name new_path content
            [Event.getMetadata file_id, Event.exportMediaCall file_id export_mime_type]
    else
      match r.get_media file_id with
      | none =>
        ⟨false, [Event.getMetadata file_id, Event.getMediaCall file_id,
          Event.errorMsg file_name], none⟩
      | some content =>
        write_and_verify env file_name download_path content
          [Event.getMetadata file_id, Event.getMediaCall file_id]

/-- Apply one write to the file map. -/
def applyWrite (files : Path → Option (List Nat)) (w : Path × List Nat) :
    Path → Option (List Nat) :=
  fun q => if q = w.1 then some w.2 else files q

/-- Apply an optional write to the file map. -/
def applyWriteOpt (w : Option (Path × List Nat)) (files : Path → Option (List Nat)) :
    Path → Option (List Nat) :=
  match w with
  | none => files
  | some pr => applyWrite files pr

/-- Result of the per-file loop of download_folder: the success count, the
events, and the filesystem after the writes. -/
structure LoopResult where
  count : Nat
  events : List Event
  fs : FS

/-- Lines 260-273: the sequential per-file loop.  Each file is attempted in
listing order; a False return only skips the success print and count. -/
def download_loop (r : Remote) (env : Env) (local_path : String) :
    List RemoteFile → FS → LoopResult
  | [], fs => ⟨0, [], fs⟩
  | f :: rest, fs =>
    let res := download_file r env f.id f.name (Path.mk local_path f.name)
    let fs1 : FS := ⟨fs.dirs, applyWriteOpt res.write fs.files⟩
    let tail := download_loop r env local_path rest fs1
    ⟨(if res.ret then 1 else 0) + tail.count,
      Event.progressMsg f.name ::
        (res.events ++ (if res.ret then [Event.downloadedMsg f.name] else []) ++ tail.events),
      tail.fs⟩

/-- Result of a step of download_folder that may abort the run. -/
structure Phase where
  events : List Event
  fs : FS
  ok : Bool

/-- Mark a directory as existing. -/
def mkdirApply (fs : FS) (d : String) : FS :=
  ⟨fun x => if x = d then true else fs.dirs x, fs.files⟩

/-- Lines 219-236: create the missing parent directory of the destination,
then the destination directory itself; a failure of either aborts the run.
os.makedirs with exist_ok=True succeeds on an existing directory, so the
target creation fails only when the target is missing and the oracle says its
creation raises. -/
def ensure_dirs (env : Env) (fs : FS) (local_path : String) : Phase :=
  let parent_dir := pyDirname local_path
  if parent_dir ≠ "" ∧ fs.dirs parent_dir = false then
    if env.mkdirFails parent_dir then
      ⟨[Event.parentMissingMsg parent_dir, Event.mkdirCall parent_dir,
        Event.failedParentMsg], fs, false⟩
    else
      let fs1 := mkdirApply fs parent_dir
      let evs1 := [Event.parentMissingMsg parent_dir, Event.mkdirCall parent_dir,
        Event.createdParentMsg]
      if env.mkdirFails local_path ∧ fs1.dirs local_path = false then
        ⟨evs1 ++ [Event.mkdirCall local_path, Event.failedTargetMsg], fs1, false⟩
      else
        ⟨evs1 ++ [Event.mkdirCall local_path, Event.targetReadyMsg],
          mkdirApply fs1 local_path, true⟩
  else
    if env.mkdirFails local_path ∧ fs.dirs local_path = false then
      ⟨[Event.mkdirCall local_path, Event.failedTargetMsg], fs, false⟩
    else
      ⟨[Event.mkdirCall local_path, Event.targetReadyMsg],
        mkdirApply fs local_path, true⟩

/-- Lines 239-247: the folder id used by the run, `none` when name lookup
finds nothing.  A 33-character alphanumeric identifier is used directly. -/
def resolvedFolderId (r : Remote) (folder_identifier : String) : Option String :=
  if folder_identifier.length = 33 ∧ pyIsAlnum folder_identifier = true then
    some folder_identifier
  else r.get_folder_id folder_identifier

/-- Result of download_folder: the events of the run, the final filesystem,
and the attempted/succeeded pair of the final summary print, `none` when the
run exits before reaching it. -/
structure FolderResult where
  events : List Event
  fs : FS
  summary : Option SyncResult

/-- Lines 249-273: announce the folder id, list the children, exit early on an
empty listing, otherwise run the loop and print the summary. -/
def list_and_download (r : Remote) (env : Env) (local_path folder_id : String)
    (fs : FS) (evs : List Event) : FolderResult :=
  let files := r.list_files_in_folder folder_id
  if files = [] then
    ⟨evs ++ [Event.downloadingFromMsg folder_id, Event.listCall folder_id,
      Event.noFilesMsg], fs, none⟩
  else
    let lr := download_loop r env local_path files fs
    ⟨evs ++ [Event.downloadingFromMsg folder_id, Event.listCall folder_id,
        Event.foundMsg files.length] ++ lr.events ++ [Event.summaryMsg lr.count files.length],
      lr.fs, some ⟨files.length, lr.count⟩⟩

/-- Lines 204-273: download_folder.  Directory setup first, then folder
resolution, then listing and the per-file loop. -/
def download_folder (r : Remote) (env : Env) (folder_identifier local_path : String)
    (fs : FS) : FolderResult :=
  let dp := ensure_dirs env fs local_path
  if dp.ok then
    if folder_identifier.length = 33 ∧ pyIsAlnum folder_identifier = true then
      list_and_download r env local_path folder_identifier dp.fs dp.events
    else
      match r.get_folder_id folder_identifier with
      | none =>
        ⟨dp.events ++ [Event.lookupCall folder_identifier,
          Event.folderNotFoundMsg folder_identifier], dp.fs, none⟩
      | some folder_id =>
        list_and_download r env local_path folder_id dp.fs
          (dp.events ++ [Event.lookupCall folder_identifier])
  else ⟨dp.events, dp.fs, none⟩

/-- Events a download_file call can emit. -/
def perFileEvent : Event → Bool
  | Event.getMetadata _ => true
  | Event.exportMediaCall _ _ => true
  | Event.getMediaCall _ => true
  | Event.writeCall _ => true
  | Event.savedMsg _ => true
  | Event.notFoundAtMsg _ => true
  | Event.skipMsg _ => true
  | Event.errorMsg _ => true
  | _ => false

/-- Events the per-file loop can emit. -/
def loopEvent : Event → Bool
  | Event.progressMsg _ => true
  | Event.downloadedMsg _ => true
  | e => perFileEvent e

/-- Events the directory-setup step can emit. -/
def dirEvent : Event → Bool
  | Event.mkdirCall _ => true
  | Event.parentMissingMsg _ => true
  | Event.createdParentMsg => true
  | Event.failedParentMsg => true
  | Event.targetReadyMsg => true
  | Event.failedTargetMsg => true
  | _ => false

/-- Per-file remote or write calls: the metadata fetch, the two content
fetches, and the local write. -/
def isFileCall : Event → Bool
  | Event.getMetadata _ => true
  | Event.getMediaCall _ => true
  | Event.exportMediaCall _ _ => true
  | Event.writeCall _ => true
  | _ => false

/-- A listing call or a per-file call. -/
def isListingOrFileCall : Event → Bool
  | Event.listCall _ => true
  | e => isFileCall e

/-- Extract the name announced by a per-file progress line. -/
def progressName? : Event → Option String
  | Event.progressMsg n => some n
  | _ => none

/-- The names announced by the per-file progress lines, in order. -/
def progressNames (evs : List Event) : List String :=
  evs.filterMap progressName?

/-- Apply a list of writes in order. -/
def applyWrites (ws : List (Path × List Nat)) (files : Path → Option (List Nat)) :
    Path → Option (List Nat) :=
  match ws with
  | [] => files
  | w :: rest => applyWrites rest (applyWrite files w)

/-- The last write a list of writes performs at a given path. -/
def lastWrite : List (Path × List Nat) → Path → Option (List Nat)
  | [], _ => none
  | w :: rest, p =>
    match lastWrite rest p with
    | some c => some c
    | none => if p = w.1 then some w.2 else none

/-- The writes the per-file loop performs, in order. -/
def loopWrites (r : Remote) (env : Env) (local_path : String)
    (files : List RemoteFile) : List (Path × List Nat) :=
  files.filterMap (fun f => (download_file r env f.id f.name (Path.mk local_path f.name)).write)

/-- The writes a download_folder run performs when its directory setup
succeeds. -/
def folderWrites (r : Remote) (env : Env) (folder_identifier local_path : String) :
    List (Path × List Nat) :=
  match resolvedFolderId r folder_identifier with
  | none => []
  | some folder_id => loopWrites r env local_path (r.list_files_in_folder folder_id)

/-- Empty local filesystem, used by concrete instantiations. -/
def fsEmpty : FS := ⟨fun _ => false, fun _ => none⟩

/-- OS oracle on which every call succeeds, used by concrete
instantiations. -/
def envOk : Env := ⟨fun _ => false, fun _ => false, fun _ => true⟩

/-- OS oracle on which the post-write existence check answers false. -/
def envVanish : Env := ⟨fun _ => false, fun _ => false, fun _ => false⟩

def rTest : Remote :=
  ⟨fun _ => none, fun _ => [], fun _ => some "application/vnd.google-apps.document",
    fun _ => none, fun fid m => if fid = "f1" ∧ m = "application/vnd.openxmlformats-officedocument.wordprocessingml.document" then some [7] else none⟩

/-- Concrete remote: file f2 is an unmapped native type (a Google Form) and
the metadata fetch for f3 raises. -/
def rMixed : Remote :=
  ⟨fun _ => none, fun _ => [],
    fun fid => if fid = "f2" then some "application/vnd.google-apps.form" else none,
    fun _ => none, fun _ _ => none⟩

/-- A 33-character alphanumeric identifier, the canonical-id shape. -/
def idShape : String := "ABCDEFGHIJABCDEFGHIJABCDEFGHIJKLM"

/-- Concrete remote: every name resolves to folder FID, whose listing is
empty. -/
def rEmptyFolder : Remote :=
  ⟨fun _ => some "FID", fun _ => [], fun _ => none, fun _ => none, fun _ _ => none⟩

/-- Concrete remote: folder FID holds two files both named x, one a native
document and one a native spreadsheet, with distinct export bytes. -/
def rDup : Remote :=
  ⟨fun _ => some "FID",
    fun fid => if fid = "FID" then
      [⟨"id1", "x", "application/vnd.google-apps.document", none⟩,
        ⟨"id2", "x", "application/vnd.google-apps.spreadsheet", none⟩] else [],
    fun fid => if fid = "id1" then some "application/vnd.google-apps.document"
      else if fid = "id2" then some "application/vnd.google-apps.spreadsheet" else none,
    fun _ => none,
    fun fid m =>
      if fid = "id1" ∧ m = "application/vnd.openxmlformats-officedocument.wordprocessingml.document" then some [1]
      else if fid = "id2" ∧ m = "application/vnd.openxmlformats-officedocument.spreadsheetml.sheet" then some [2]
      else none⟩

/-- Concrete remote: folder FID holds two plain files both named f with
distinct contents. -/
def rTwoRaw : Remote :=
  ⟨fun _ => some "FID",
    fun fid => if fid = "FID" then
      [⟨"a1", "f", "text/plain", none⟩, ⟨"a2", "f", "text/plain", none⟩] else [],
    fun fid => if fid = "a1" ∨ fid = "a2" then some "text/plain" else none,
    fun fid => if fid = "a1" then some [5] else if fid = "a2" then some [6] else none,
    fun _ _ => none⟩

/-- Any event emitted by download_file is a per-file event. -/
theorem download_file_events_perFile (r : Remote) (env : Env) (file_id file_name : String)
    (download_path : Path) :
    ((download_file r env file_id file_name download_path).events.all perFileEvent) = true := by
  unfold download_file write_and_verify
  repeat' split
  all_goals simp only [List.all_cons, List.all_nil, perFileEvent, Bool.and_true, Bool.true_and]
  all_goals repeat' split
  all_goals rfl

/-- A membership refuter: if every element satisfies `p` and `e` does not,
then `e` is not in the list. -/
theorem not_mem_of_all {p : Event → Bool} {l : List Event} (h : l.all p = true)
    {e : Event} (hp : p e = false) : e ∉ l := by
  intro hm
  rw [List.all_eq_true.mp h e hm] at hp
  exact Bool.noConfusion hp

/-- A per-file event is a loop event. -/
theorem loopEvent_of_perFile {e : Event} (h : perFileEvent e = true) : loopEvent e = true := by
  cases e <;> simp [perFileEvent, loopEvent] at h ⊢

/-- A per-file event carries no progress name. -/
theorem progressName_none_of_perFile {e : Event} (h : perFileEvent e = true) :
    progressName? e = none := by
  cases e <;> simp [perFileEvent, progressName?] at h ⊢

/-- A directory-setup event carries no progress name. -/
theorem progressName_none_of_dirEvent {e : Event} (h : dirEvent e = true) :
    progressName? e = none := by
  cases e <;> simp [dirEvent, progressName?] at h ⊢

/-- Any event emitted by the per-file loop is a loop event. -/
theorem download_loop_events_loopEvent (r : Remote) (env : Env) (local_path : String) :
    ∀ (files : List RemoteFile) (fs : FS),
      ((download_loop r env local_path files fs).events.all loopEvent) = true := by
  intro files
  induction files with
  | nil => intro fs; rfl
  | cons f rest ih =>
    intro fs
    simp only [download_loop, List.all_cons, List.all_append, Bool.and_eq_true]
    refine ⟨rfl, ⟨?_, ?_⟩, ?_⟩
    · rw [List.all_eq_true]
      intro e he
      exact loopEvent_of_perFile
        (List.all_eq_true.mp (download_file_events_perFile r env f.id f.name _) e he)
    · split <;> rfl
    · exact ih _

/-- The loop succeeds on at most as many files as it is given. -/
theorem download_loop_count_le (r : Remote) (env : Env) (local_path : String) :
    ∀ (files : List RemoteFile) (fs : FS),
      (download_loop r env local_path files fs).count ≤ files.length := by
  intro files
  induction files with
  | nil => intro fs; simp [download_loop]
  | cons f rest ih =>
    intro fs
    have h := ih (⟨fs.dirs, applyWriteOpt (download_file r env f.id f.name
      (Path.mk local_path f.name)).write fs.files⟩ : FS)
    simp only [download_loop, List.length_cons]
    split <;> omega

/-- The loop announces exactly the given files, in listing order. -/
theorem download_loop_progress (r : Remote) (env : Env) (local_path : String) :
    ∀ (files : List RemoteFile) (fs : FS),
      progressNames (download_loop r env local_path files fs).events =
        files.map RemoteFile.name := by
  intro files
  induction files with
  | nil => intro fs; simp [download_loop, progressNames]
  | cons f rest ih =>
    intro fs
    have h1 : (download_file r env f.id f.name (Path.mk local_path f.name)).events.filterMap
        progressName? = [] := by
      rw [List.filterMap_eq_nil_iff]
      intro e he
      exact progressName_none_of_perFile
        (List.all_eq_true.mp (download_file_events_perFile r env f.id f.name _) e he)
    have h2 : ((if (download_file r env f.id f.name (Path.mk local_path f.name)).ret then
        [Event.downloadedMsg f.name] else []) : List Event).filterMap progressName? = [] := by
      split <;> rfl
    simp only [download_loop, progressNames, List.filterMap_cons, List.filterMap_append, h1, h2]
    simp only [progressName?, List.nil_append, List.map_cons]
    exact congrArg (List.cons f.name) (ih _)

/-- The loop does not change which directories exist. -/
theorem download_loop_dirs (r : Remote) (env : Env) (local_path : String) :
    ∀ (files : List RemoteFile) (fs : FS),
      (download_loop r env local_path files fs).fs.dirs = fs.dirs := by
  intro files
  induction files with
  | nil => intro fs; rfl
  | cons f rest ih => intro fs; simp only [download_loop]; rw [ih]

/-- The file map produced by the loop is its write list applied in order. -/
theorem download_loop_files (r : Remote) (env : Env) (local_path : String) :
    ∀ (files : List RemoteFile) (fs : FS),
      (download_loop r env local_path files fs).fs.files =
        applyWrites (loopWrites r env local_path files) fs.files := by
  intro files
  induction files with
  | nil => intro fs; rfl
  | cons f rest ih =>
    intro fs
    simp only [download_loop, loopWrites, List.filterMap_cons]
    cases hw : (download_file r env f.id f.name (Path.mk local_path f.name)).write with
    | none =>
      simp only [download_loop, loopWrites] at ih
      rw [ih]
      simp [applyWriteOpt, hw]
    | some pr =>
      simp only [download_loop, loopWrites] at ih
      rw [ih]
      simp [applyWriteOpt, applyWrites, hw]

/-- Looking up a path after a write list is applied gives the last write at
that path, if any. -/
theorem applyWrites_lastWrite :
    ∀ (ws : List (Path × List Nat)) (files : Path → Option (List Nat)) (p : Path),
      applyWrites ws files p =
        match lastWrite ws p with
        | some c => some c
        | none => files p := by
  intro ws
  induction ws with
  | nil => intro files p; rfl
  | cons w rest ih =>
    intro files p
    simp only [applyWrites, lastWrite]
    rw [ih]
    cases lastWrite rest p with
    | some c => rfl
    | none => simp only [applyWrite]; split <;> rfl

/-- Applying the same write list twice is the same as applying it once. -/
theorem applyWrites_idem (ws : List (Path × List Nat)) (files : Path → Option (List Nat))
    (p : Path) : applyWrites ws (applyWrites ws files) p = applyWrites ws files p := by
  rw [applyWrites_lastWrite, applyWrites_lastWrite]
  cases lastWrite ws p <;> rfl

/-- Directory setup does not change file contents. -/
theorem ensure_dirs_files (env : Env) (fs : FS) (local_path : String) :
    (ensure_dirs env fs local_path).fs.files = fs.files := by
  simp only [ensure_dirs]
  repeat' split
  all_goals rfl

/-- Any event emitted by directory setup is a directory-setup event. -/
theorem ensure_dirs_events_dirEvent (env : Env) (fs : FS) (local_path : String) :
    ((ensure_dirs env fs local_path).events.all dirEvent) = true := by
  simp only [ensure_dirs]
  repeat' split
  all_goals rfl

/-- When directory setup succeeds, a makedirs call on the destination was
issued. -/
theorem ensure_dirs_ok_target_mkdir (env : Env) (fs : FS) (local_path : String)
    (h : (ensure_dirs env fs local_path).ok = true) :
    Event.mkdirCall local_path ∈ (ensure_dirs env fs local_path).events := by
  simp only [ensure_dirs] at h ⊢
  repeat' split
  all_goals simp_all

/-- When directory setup succeeds and the parent was missing, a makedirs call
on the parent was issued. -/
theorem ensure_dirs_ok_parent_mkdir (env : Env) (fs : FS) (local_path : String)
    (h : (ensure_dirs env fs local_path).ok = true)
    (h1 : pyDirname local_path ≠ "")
    (h2 : fs.dirs (pyDirname local_path) = false) :
    Event.mkdirCall (pyDirname local_path) ∈ (ensure_dirs env fs local_path).events := by
  simp only [ensure_dirs] at h ⊢
  repeat' split
  all_goals simp_all

/-- When directory setup fails, one of the two failure messages was
printed. -/
theorem ensure_dirs_fail_msg (env : Env) (fs : FS) (local_path : String)
    (h : (ensure_dirs env fs local_path).ok = false) :
    Event.failedParentMsg ∈ (ensure_dirs env fs local_path).events ∨
      Event.failedTargetMsg ∈ (ensure_dirs env fs local_path).events := by
  simp only [ensure_dirs] at h ⊢
  repeat' split
  all_goals simp_all

/-- When directory setup succeeds, no failure message was printed. -/
theorem ensure_dirs_ok_no_fail_msgs (env : Env) (fs : FS) (local_path : String)
    (h : (ensure_dirs env fs local_path).ok = true) :
    Event.failedParentMsg ∉ (ensure_dirs env fs local_path).events ∧
      Event.failedTargetMsg ∉ (ensure_dirs env fs local_path).events := by
  simp only [ensure_dirs] at h ⊢
  repeat' split
  all_goals simp_all

/-- A failed directory setup fails again on any filesystem with the same
directories as the one it left behind. -/
theorem ensure_dirs_fail_again (env : Env) (fs : FS) (local_path : String)
    (h : (ensure_dirs env fs local_path).ok = false) (fs2 : FS)
    (hd : fs2.dirs = (ensure_dirs env fs local_path).fs.dirs) :
    (ensure_dirs env fs2 local_path).ok = false := by
  by_cases hA : pyDirname local_path ≠ "" ∧ fs.dirs (pyDirname local_path) = false
  · by_cases hB : env.mkdirFails (pyDirname local_path) = true
    · have e1 : ensure_dirs env fs local_path =
          ⟨[Event.parentMissingMsg (pyDirname local_path),
            Event.mkdirCall (pyDirname local_path), Event.failedParentMsg], fs, false⟩ := by
        simp only [ensure_dirs]
        rw [if_pos hA, if_pos hB]
      rw [e1] at hd
      have hA2 : pyDirname local_path ≠ "" ∧ fs2.dirs (pyDirname local_path) = false := by
        rw [hd]; exact hA
      simp only [ensure_dirs]
      rw [if_pos hA2, if_pos hB]
    · have hC : env.mkdirFails local_path ∧
          (mkdirApply fs (pyDirname local_path)).dirs local_path = false := by
        by_contra hC
        have e1 : ensure_dirs env fs local_path =
            ⟨[Event.parentMissingMsg (pyDirname local_path),
              Event.mkdirCall (pyDirname local_path), Event.createdParentMsg] ++
              [Event.mkdirCall local_path, Event.targetReadyMsg],
              mkdirApply (mkdirApply fs (pyDirname local_path)) local_path, true⟩ := by
          simp only [ensure_dirs]
          rw [if_pos hA, if_neg hB, if_neg hC]
        rw [e1] at h
        exact Bool.noConfusion h
      have e1 : ensure_dirs env fs local_path =
          ⟨[Event.parentMissingMsg (pyDirname local_path),
            Event.mkdirCall (pyDirname local_path), Event.createdParentMsg] ++
            [Event.mkdirCall local_path, Event.failedTargetMsg],
            mkdirApply fs (pyDirname local_path), false⟩ := by
        simp only [ensure_dirs]
        rw [if_pos hA, if_neg hB, if_pos hC]
      rw [e1] at hd
      have hA2 : ¬ (pyDirname local_path ≠ "" ∧ fs2.dirs (pyDirname local_path) = false) := by
        intro hA2
        have : fs2.dirs (pyDirname local_path) = true := by
          rw [hd]; simp [mkdirApply]
        rw [hA2.2] at this
        exact Bool.noConfusion this
      have hC2 : env.mkdirFails local_path ∧ fs2.dirs local_path = false := by
        refine ⟨hC.1, ?_⟩
        rw [hd]; exact hC.2
      simp only [ensure_dirs]
      rw [if_neg hA2, if_pos hC2]
  · have hC : env.mkdirFails local_path ∧ fs.dirs local_path = false := by
      by_contra hC
      have e1 : ensure_dirs env fs local_path =
          ⟨[Event.mkdirCall local_path, Event.targetReadyMsg],
            mkdirApply fs local_path, true⟩ := by
        simp only [ensure_dirs]
        rw [if_neg hA, if_neg hC]
      rw [e1] at h
      exact Bool.noConfusion h
    have e1 : ensure_dirs env fs local_path =
        ⟨[Event.mkdirCall local_path, Event.failedTargetMsg], fs, false⟩ := by
      simp only [ensure_dirs]
      rw [if_neg hA, if_pos hC]
    rw [e1] at hd
    have hA2 : ¬ (pyDirname local_path ≠ "" ∧ fs2.dirs (pyDirname local_path) = false) := by
      intro hA2
      rw [hd] at hA2
      exact hA ⟨hA2.1, hA2.2⟩
    have hC2 : env.mkdirFails local_path ∧ fs2.dirs local_path = false := by
      refine ⟨hC.1, ?_⟩
      rw [hd]; exact hC.2
    simp only [ensure_dirs]
    rw [if_neg hA2, if_pos hC2]

/-- A boolean that is not true is false. -/
theorem bool_eq_false {b : Bool} (h : ¬ b = true) : b = false := by
  cases b
  · rfl
  · exact absurd rfl h

/-- Equation for list_and_download on an empty listing. -/
theorem list_and_download_empty (r : Remote) (env : Env) (local_path folder_id : String)
    (fs : FS) (evs : List Event) (hnil : r.list_files_in_folder folder_id = []) :
    list_and_download r env local_path folder_id fs evs =
      ⟨evs ++ [Event.downloadingFromMsg folder_id, Event.listCall folder_id,
        Event.noFilesMsg], fs, none⟩ := by
  simp [list_and_download, hnil]

/-- Equation for list_and_download on a nonempty listing. -/
theorem list_and_download_cons (r : Remote) (env : Env) (local_path folder_id : String)
    (fs : FS) (evs : List Event) (hne : ¬ r.list_files_in_folder folder_id = []) :
    list_and_download r env local_path folder_id fs evs =
      ⟨evs ++ [Event.downloadingFromMsg folder_id, Event.listCall folder_id,
          Event.foundMsg (r.list_files_in_folder folder_id).length] ++
          (download_loop r env local_path (r.list_files_in_folder folder_id) fs).events ++
          [Event.summaryMsg (download_loop r env local_path
            (r.list_files_in_folder folder_id) fs).count
            (r.list_files_in_folder folder_id).length],
        (download_loop r env local_path (r.list_files_in_folder folder_id) fs).fs,
        some ⟨(r.list_files_in_folder folder_id).length,
          (download_loop r env local_path (r.list_files_in_folder folder_id) fs).count⟩⟩ := by
  simp only [list_and_download]
  rw [if_neg hne]

/-- Equation for download_folder when directory setup fails. -/
theorem download_folder_fail (r : Remote) (env : Env) (folder_identifier local_path : String)
    (fs : FS) (h : (ensure_dirs env fs local_path).ok = false) :
    download_folder r env folder_identifier local_path fs =
      ⟨(ensure_dirs env fs local_path).events, (ensure_dirs env fs local_path).fs, none⟩ := by
  simp only [download_folder]
  rw [if_neg (by rw [h]; exact Bool.noConfusion)]

/-- Equation for download_folder on an id-shaped identifier. -/
theorem download_folder_ok_shape (r : Remote) (env : Env)
    (folder_identifier local_path : String) (fs : FS)
    (h : (ensure_dirs env fs local_path).ok = true)
    (hS : folder_identifier.length = 33 ∧ pyIsAlnum folder_identifier = true) :
    download_folder r env folder_identifier local_path fs =
      list_and_download r env local_path folder_identifier
        (ensure_dirs env fs local_path).fs (ensure_dirs env fs local_path).events := by
  simp only [download_folder]
  rw [if_pos h, if_pos hS]

/-- Equation for download_folder when name lookup finds no folder. -/
theorem download_folder_ok_lookup_none (r : Remote) (env : Env)
    (folder_identifier local_path : String) (fs : FS)
    (h : (ensure_dirs env fs local_path).ok = true)
    (hS : ¬ (folder_identifier.length = 33 ∧ pyIsAlnum folder_identifier = true))
    (hg : r.get_folder_id folder_identifier = none) :
    download_folder r env folder_identifier local_path fs =
      ⟨(ensure_dirs env fs local_path).events ++ [Event.lookupCall folder_identifier,
        Event.folderNotFoundMsg folder_identifier], (ensure_dirs env fs local_path).fs,
        none⟩ := by
  simp only [download_folder]
  rw [if_pos h, if_neg hS, hg]

/-- Equation for download_folder when name lookup finds a folder. -/
theorem download_folder_ok_lookup_some (r : Remote) (env : Env)
    (folder_identifier local_path folder_id : String) (fs : FS)
    (h : (ensure_dirs env fs local_path).ok = true)
    (hS : ¬ (folder_identifier.length = 33 ∧ pyIsAlnum folder_identifier = true))
    (hg : r.get_folder_id folder_identifier = some folder_id) :
    download_folder r env folder_identifier local_path fs =
      list_and_download r env local_path folder_id (ensure_dirs env fs local_path).fs
        ((ensure_dirs env fs local_path).events ++ [Event.lookupCall folder_identifier]) := by
  simp only [download_folder]
  rw [if_pos h, if_neg hS, hg]

/-- The directories existing after a download_folder run are exactly those
after its directory-setup step. -/
theorem download_folder_dirs (r : Remote) (env : Env) (folder_identifier local_path : String)
    (fs : FS) :
    (download_folder r env folder_identifier local_path fs).fs.dirs =
      (ensure_dirs env fs local_path).fs.dirs := by
  by_cases hok : (ensure_dirs env fs local_path).ok = true
  · by_cases hS : folder_identifier.length = 33 ∧ pyIsAlnum folder_identifier = true
    · rw [download_folder_ok_shape r env folder_identifier local_path fs hok hS]
      by_cases hnil : r.list_files_in_folder folder_identifier = []
      · rw [list_and_download_empty r env local_path folder_identifier _ _ hnil]
      · rw [list_and_download_cons r env local_path folder_identifier _ _ hnil]
        exact download_loop_dirs r env local_path _ _
    · cases hg : r.get_folder_id folder_identifier with
      | none => rw [download_folder_ok_lookup_none r env folder_identifier local_path fs hok hS hg]
      | some folder_id =>
        rw [download_folder_ok_lookup_some r env folder_identifier local_path folder_id fs hok hS hg]
        by_cases hnil : r.list_files_in_folder folder_id = []
        · rw [list_and_download_empty r env local_path folder_id _ _ hnil]
        · rw [list_and_download_cons r env local_path folder_id _ _ hnil]
          exact download_loop_dirs r env local_path _ _
  · rw [download_folder_fail r env folder_identifier local_path fs (bool_eq_false hok)]

/-- The file map after a download_folder run: when directory setup succeeds it
is the run's write list applied to the initial map, otherwise it is
unchanged. -/
theorem download_folder_files (r : Remote) (env : Env) (folder_identifier local_path : String)
    (fs : FS) :
    (download_folder r env folder_identifier local_path fs).fs.files =
      if (ensure_dirs env fs local_path).ok = true then
        applyWrites (folderWrites r env folder_identifier local_path) fs.files
      else fs.files := by
  by_cases hok : (ensure_dirs env fs local_path).ok = true
  · rw [if_pos hok]
    by_cases hS : folder_identifier.length = 33 ∧ pyIsAlnum folder_identifier = true
    · have hres : resolvedFolderId r folder_identifier = some folder_identifier := by
        unfold resolvedFolderId
        rw [if_pos hS]
      have hw : folderWrites r env folder_identifier local_path =
          loopWrites r env local_path (r.list_files_in_folder folder_identifier) := by
        unfold folderWrites
        rw [hres]
      rw [download_folder_ok_shape r env folder_identifier local_path fs hok hS, hw]
      by_cases hnil : r.list_files_in_folder folder_identifier = []
      · rw [list_and_download_empty r env local_path folder_identifier _ _ hnil, hnil]
        simp [loopWrites, applyWrites, ensure_dirs_files]
      · rw [list_and_download_cons r env local_path folder_identifier _ _ hnil]
        rw [download_loop_files r env local_path _ _, ensure_dirs_files]
    · have hres : resolvedFolderId r folder_identifier = r.get_folder_id folder_identifier := by
        unfold resolvedFolderId
        rw [if_neg hS]
      cases hg : r.get_folder_id folder_identifier with
      | none =>
        have hw : folderWrites r env folder_identifier local_path = [] := by
          unfold folderWrites
          rw [hres, hg]
        rw [download_folder_ok_lookup_none r env folder_identifier local_path fs hok hS hg, hw]
        simp [applyWrites, ensure_dirs_files]
      | some folder_id =>
        have hw : folderWrites r env folder_identifier local_path =
            loopWrites r env local_path (r.list_files_in_folder folder_id) := by
          unfold folderWrites
          rw [hres, hg]
        rw [download_folder_ok_lookup_some r env folder_identifier local_path folder_id fs hok hS hg, hw]
        by_cases hnil : r.list_files_in_folder folder_id = []
        · rw [list_and_download_empty r env local_path folder_id _ _ hnil, hnil]
          simp [loopWrites, applyWrites, ensure_dirs_files]
        · rw [list_and_download_cons r env local_path folder_id _ _ hnil]
          rw [download_loop_files r env local_path _ _, ensure_dirs_files]
  · rw [if_neg hok, download_folder_fail r env folder_identifier local_path fs (bool_eq_false hok)]
    exact ensure_dirs_files env fs local_path

/-- C8: running download_folder twice with the same folder identifier, the
same destination directory and the same (unchanged) remote produces the same
final file contents at every path: the second run rewrites each file
identically and creates no new entry. -/
theorem download_folder_idempotent (r : Remote) (env : Env)
    (folder_identifier local_path : String) (fs : FS) (p : Path) :
    (download_folder r env folder_identifier local_path
        (download_folder r env folder_identifier local_path fs).fs).fs.files p =
      (download_folder r env folder_identifier local_path fs).fs.files p := by
  have h1 := download_folder_files r env folder_identifier local_path fs
  have h2 := download_folder_files r env folder_identifier local_path
    (download_folder r env folder_identifier local_path fs).fs
  by_cases hok2 : (ensure_dirs env (download_folder r env folder_identifier local_path fs).fs
      local_path).ok = true
  · have hok : (ensure_dirs env fs local_path).ok = true := by
      by_contra hok
      have hfail := ensure_dirs_fail_again env fs local_path (bool_eq_false hok)
        (download_folder r env folder_identifier local_path fs).fs
        (download_folder_dirs r env folder_identifier local_path fs)
      rw [hfail] at hok2
      exact Bool.noConfusion hok2
    rw [h2, if_pos hok2, h1, if_pos hok]
    exact applyWrites_idem _ _ p
  · rw [h2, if_neg hok2]

/-- C1: a file whose freshly fetched mimeType is a native Google Apps type is
never written with raw bytes: no get_media call is issued at all, an unmapped
native type yields return value false with no write, and any write that does
happen carries bytes obtained from export_media in the mapped target
format. -/
theorem native_file_never_raw (r : Remote) (env : Env) (file_id file_name : String)
    (download_path : Path) (m : String)
    (h1 : r.files_get file_id = some m)
    (h2 : strStartsWith m "application/vnd.google-apps." = true) :
    (∀ fid2, Event.getMediaCall fid2 ∉
      (download_file r env file_id file_name download_path).events) ∧
    (export_formats m = none →
      (download_file r env file_id file_name download_path).ret = false ∧
      (download_file r env file_id file_name download_path).write = none) ∧
    (∀ pr, (download_file r env file_id file_name download_path).write = some pr →
      ∃ em, export_formats m = some em ∧ r.export_media file_id em = some pr.2) := by
  refine ⟨?_, ?_, ?_⟩
  · intro fid2
    simp only [download_file, write_and_verify, h1]
    rw [if_pos h2]
    generalize export_formats m = ef
    cases ef with
    | none => simp
    | some em =>
      dsimp only
      generalize r.export_media file_id em = emc
      cases emc with
      | none => simp
      | some content =>
        dsimp only
        repeat' split
        all_goals simp
  · intro h3
    simp only [download_file, h1]
    rw [if_pos h2]
    simp [h3]
  · intro pr hpr
    revert hpr
    simp only [download_file, write_and_verify, h1]
    rw [if_pos h2]
    generalize hef : export_formats m = ef
    cases ef with
    | none => intro hpr; simp at hpr
    | some em =>
      dsimp only
      generalize hem : r.export_media file_id em = emc
      cases emc with
      | none => intro hpr; simp at hpr
      | some content =>
        dsimp only
        split <;> split
        all_goals intro hpr
        all_goals first
          | exact Option.noConfusion hpr
          | (have hpr2 := Option.some.inj hpr
             subst hpr2
             exact ⟨em, rfl, hem⟩)

/-- C1 witness: a concrete native document run performs an export-backed
write. -/
theorem native_file_never_raw_witness :
    ∃ em, export_formats "application/vnd.google-apps.document" = some em ∧
      rTest.export_media "f1" em = some ((Path.mk "d" "report.docx", ([7] : List Nat)).2) :=
  (native_file_never_raw rTest envOk "f1" "report" (Path.mk "d" "report")
    "application/vnd.google-apps.document" (by decide) (by decide)).2.2
    (Path.mk "d" "report.docx", [7]) (by decide)

/-- C3 counterexample: the outcome of skipping an unmapped native file and the
outcome of an outright failure are the same return value false, so the caller
cannot distinguish Skipped from Failed through what download_file returns. -/
theorem skip_and_fail_same_return :
    (download_file rMixed envOk "f2" "MyForm" (Path.mk "d" "MyForm")).ret =
      (download_file rMixed envOk "f3" "Broken" (Path.mk "d" "Broken")).ret ∧
    (download_file rMixed envOk "f2" "MyForm" (Path.mk "d" "MyForm")).ret = false := by
  decide

/-- C3 (amended): an unmapped native type is skipped, not written: download_file
returns false - the same value an outright failure returns, so the two
outcomes are distinguishable only through the emitted messages - and its
events are exactly the metadata fetch and the skip message (in particular, no
error message and no write occur). -/
theorem unmapped_native_skip (r : Remote) (env : Env) (file_id file_name : String)
    (download_path : Path) (m : String)
    (h1 : r.files_get file_id = some m)
    (h2 : strStartsWith m "application/vnd.google-apps." = true)
    (h3 : export_formats m = none) :
    (download_file r env file_id file_name download_path).ret = false ∧
    (download_file r env file_id file_name download_path).write = none ∧
    (download_file r env file_id file_name download_path).events =
      [Event.getMetadata file_id, Event.skipMsg file_name] := by
  simp only [download_file, h1]
  rw [if_pos h2]
  simp [h3]

/-- C3 amended-claim witness: the concrete unmapped-native run emits the skip
message and no error message. -/
theorem unmapped_native_skip_witness :
    (download_file rMixed envOk "f2" "MyForm" (Path.mk "d" "MyForm")).events =
      [Event.getMetadata "f2", Event.skipMsg "MyForm"] :=
  (unmapped_native_skip rMixed envOk "f2" "MyForm" (Path.mk "d" "MyForm")
    "application/vnd.google-apps.form" (by decide) (by decide) (by decide)).2.2

/-- C4: a file whose fetched mimeType is the native document type and whose
declared name does not end in ".docx" is written, if at all, to a path whose
directory is the original destination directory and whose leaf is the declared
name with ".docx" appended. -/
theorem document_docx_extension (r : Remote) (env : Env) (file_id file_name : String)
    (download_path : Path)
    (h1 : r.files_get file_id = some "application/vnd.google-apps.document")
    (h2 : strEndsWith file_name ".docx" = false) :
    ∀ pr, (download_file r env file_id file_name download_path).write = some pr →
      pr.1.dir = download_path.dir ∧ pr.1.leaf = file_name ++ ".docx" := by
  intro pr
  have hsw : strStartsWith "application/vnd.google-apps.document"
      "application/vnd.google-apps." = true := by decide
  have hef : export_formats "application/vnd.google-apps.document" =
      some "application/vnd.openxmlformats-officedocument.wordprocessingml.document" := by
    decide
  have hex : (extensions
      "application/vnd.openxmlformats-officedocument.wordprocessingml.document").getD "" =
      ".docx" := by decide
  have hne : ¬ (strEndsWith file_name ".docx" = true) := by
    rw [h2]; exact Bool.noConfusion
  simp only [download_file, h1]
  rw [if_pos hsw]
  simp only [write_and_verify, hef, hex]
  simp only [if_neg hne]
  generalize r.export_media file_id
      "application/vnd.openxmlformats-officedocument.wordprocessingml.document" = emc
  cases emc with
  | none => intro hpr; simp at hpr
  | some content =>
    dsimp only
    split
    · intro hpr; exact Option.noConfusion hpr
    · intro hpr
      have hpr2 := Option.some.inj hpr
      subst hpr2
      exact ⟨rfl, rfl⟩

/-- C4 witness: a concrete extensionless document name is written to the same
directory with ".docx" appended. -/
theorem document_docx_extension_witness :
    (Path.mk "d" "report.docx", ([7] : List Nat)).1.dir = (Path.mk "d" "report").dir ∧
    (Path.mk "d" "report.docx", ([7] : List Nat)).1.leaf = "report" ++ ".docx" :=
  document_docx_extension rTest envOk "f1" "report" (Path.mk "d" "report")
    (by decide) (by decide) (Path.mk "d" "report.docx", [7]) (by decide)

/-- C9: whenever download_file performs its write without an exception it
returns true, even when the post-write existence check answers false; in that
case the anomaly is reported with the not-found message but the outcome stays
successful. -/
theorem write_verification_no_fail (r : Remote) (env : Env) (file_id file_name : String)
    (download_path : Path) (pr : Path × List Nat)
    (h : (download_file r env file_id file_name download_path).write = some pr) :
    (download_file r env file_id file_name download_path).ret = true ∧
    (env.verifyExists pr.1 = false →
      Event.notFoundAtMsg pr.1 ∈
        (download_file r env file_id file_name download_path).events) := by
  revert h
  simp only [download_file, write_and_verify]
  generalize r.files_get file_id = mres
  cases mres with
  | none => intro h; simp at h
  | some mime_type =>
    dsimp only
    split
    · generalize export_formats mime_type = ef
      cases ef with
      | none => intro h; simp at h
      | some em =>
        dsimp only
        generalize r.export_media file_id em = emc
        cases emc with
        | none => intro h; simp at h
        | some content =>
          dsimp only
          split <;> split
          all_goals intro h
          all_goals first
            | exact Option.noConfusion h
            | (have h2 := Option.some.inj h
               subst h2
               refine ⟨rfl, fun hv => ?_⟩
               simp [hv])
    · generalize r.get_media file_id = gmc
      cases gmc with
      | none => intro h; simp at h
      | some content =>
        dsimp only
        split
        all_goals intro h
        all_goals first
          | exact Option.noConfusion h
          | (have h2 := Option.some.inj h
             subst h2
             refine ⟨rfl, fun hv => ?_⟩
             simp [hv])

/-- C9 witness: a concrete run whose existence check answers false still
returns true and reports the anomaly. -/
theorem write_verification_no_fail_witness :
    (download_file rTest envVanish "f1" "report" (Path.mk "d" "report")).ret = true ∧
    Event.notFoundAtMsg ((Path.mk "d" "report.docx", ([7] : List Nat)).1) ∈
      (download_file rTest envVanish "f1" "report" (Path.mk "d" "report")).events := by
  have h := write_verification_no_fail rTest envVanish "f1" "report" (Path.mk "d" "report")
    (Path.mk "d" "report.docx", [7]) (by decide)
  exact ⟨h.1, h.2 (by decide)⟩

/-- A directory-setup event is neither a listing call nor a per-file call. -/
theorem dirEvent_not_call {e : Event} (h : dirEvent e = true) :
    isListingOrFileCall e = false := by
  cases e <;> simp [dirEvent, isListingOrFileCall, isFileCall] at h ⊢

/-- A directory-setup event is not a per-file call. -/
theorem dirEvent_not_fileCall {e : Event} (h : dirEvent e = true) :
    isFileCall e = false := by
  cases e <;> simp [dirEvent, isFileCall] at h ⊢

/-- progressNames distributes over append. -/
theorem progressNames_append (a b : List Event) :
    progressNames (a ++ b) = progressNames a ++ progressNames b :=
  List.filterMap_append a b progressName?

/-- Directory setup announces no per-file progress. -/
theorem ensure_dirs_progressNames (env : Env) (fs : FS) (local_path : String) :
    progressNames (ensure_dirs env fs local_path).events = [] := by
  rw [progressNames, List.filterMap_eq_nil_iff]
  intro e he
  exact progressName_none_of_dirEvent
    (List.all_eq_true.mp (ensure_dirs_events_dirEvent env fs local_path) e he)

/-- When directory setup succeeds its events are an initial segment of the
whole run's events. -/
theorem download_folder_dir_events_first (r : Remote) (env : Env)
    (folder_identifier local_path : String) (fs : FS)
    (hok : (ensure_dirs env fs local_path).ok = true) :
    (download_folder r env folder_identifier local_path fs).events.take
        (ensure_dirs env fs local_path).events.length =
      (ensure_dirs env fs local_path).events := by
  by_cases hS : folder_identifier.length = 33 ∧ pyIsAlnum folder_identifier = true
  · rw [download_folder_ok_shape r env folder_identifier local_path fs hok hS]
    by_cases hnil : r.list_files_in_folder folder_identifier = []
    · rw [list_and_download_empty r env local_path folder_identifier _ _ hnil]
      exact List.take_left _ _
    · rw [list_and_download_cons r env local_path folder_identifier _ _ hnil]
      rw [List.append_assoc, List.append_assoc]
      exact List.take_left _ _
  · cases hg : r.get_folder_id folder_identifier with
    | none =>
      rw [download_folder_ok_lookup_none r env folder_identifier local_path fs hok hS hg]
      exact List.take_left _ _
    | some folder_id =>
      rw [download_folder_ok_lookup_some r env folder_identifier local_path folder_id fs hok hS hg]
      by_cases hnil : r.list_files_in_folder folder_id = []
      · rw [list_and_download_empty r env local_path folder_id _ _ hnil]
        rw [List.append_assoc]
        exact List.take_left _ _
      · rw [list_and_download_cons r env local_path folder_id _ _ hnil]
        rw [List.append_assoc, List.append_assoc, List.append_assoc]
        exact List.take_left _ _

/-- C5: a folder identifier of the canonical-id shape (length exactly 33 and
alphanumeric) is used directly as the folder id and the run issues no
name-lookup call at all; an identifier not of that shape is resolved through
name lookup, and the lookup call is issued once directory setup lets the run
reach resolution. -/
theorem id_shape_bypasses_lookup (r : Remote) (env : Env)
    (folder_identifier local_path : String) (fs : FS) :
    (folder_identifier.length = 33 ∧ pyIsAlnum folder_identifier = true →
      resolvedFolderId r folder_identifier = some folder_identifier ∧
      ∀ n, Event.lookupCall n ∉
        (download_folder r env folder_identifier local_path fs).events) ∧
    (¬ (folder_identifier.length = 33 ∧ pyIsAlnum folder_identifier = true) →
      resolvedFolderId r folder_identifier = r.get_folder_id folder_identifier ∧
      ((ensure_dirs env fs local_path).ok = true →
        Event.lookupCall folder_identifier ∈
          (download_folder r env folder_identifier local_path fs).events)) := by
  constructor
  · intro hS
    refine ⟨by unfold resolvedFolderId; rw [if_pos hS], ?_⟩
    intro n
    by_cases hok : (ensure_dirs env fs local_path).ok = true
    · rw [download_folder_ok_shape r env folder_identifier local_path fs hok hS]
      by_cases hnil : r.list_files_in_folder folder_identifier = []
      · rw [list_and_download_empty r env local_path folder_identifier _ _ hnil]
        intro hmem
        rw [List.mem_append] at hmem
        rcases hmem with hmem | hmem
        · exact absurd hmem (not_mem_of_all (ensure_dirs_events_dirEvent env fs local_path) rfl)
        · simp at hmem
      · rw [list_and_download_cons r env local_path folder_identifier _ _ hnil]
        intro hmem
        simp only [List.mem_append] at hmem
        rcases hmem with ((hmem | hmem) | hmem) | hmem
        · exact absurd hmem (not_mem_of_all (ensure_dirs_events_dirEvent env fs local_path) rfl)
        · simp at hmem
        · exact absurd hmem (not_mem_of_all (download_loop_events_loopEvent r env local_path _ _) rfl)
        · simp at hmem
    · rw [download_folder_fail r env folder_identifier local_path fs (bool_eq_false hok)]
      intro hmem
      exact absurd hmem (not_mem_of_all (ensure_dirs_events_dirEvent env fs local_path) rfl)
  · intro hS
    refine ⟨by unfold resolvedFolderId; rw [if_neg hS], ?_⟩
    intro hok
    cases hg : r.get_folder_id folder_identifier with
    | none =>
      rw [download_folder_ok_lookup_none r env folder_identifier local_path fs hok hS hg]
      simp
    | some folder_id =>
      rw [download_folder_ok_lookup_some r env folder_identifier local_path folder_id fs hok hS hg]
      by_cases hnil : r.list_files_in_folder folder_id = []
      · rw [list_and_download_empty r env local_path folder_id _ _ hnil]
        simp
      · rw [list_and_download_cons r env local_path folder_id _ _ hnil]
        simp

/-- C5 witness: a concrete canonical-shape identifier resolves to itself and
its run issues no lookup call. -/
theorem id_shape_bypasses_lookup_witness :
    resolvedFolderId rMixed idShape = some idShape ∧
    Event.lookupCall "x" ∉ (download_folder rMixed envOk idShape "d" fsEmpty).events := by
  have h := (id_shape_bypasses_lookup rMixed envOk idShape "d" fsEmpty).1 (by decide)
  exact ⟨h.1, h.2 "x"⟩

/-- C6: when directory setup fails the run issues no listing call and no
per-file call at all; when it succeeds, its events - which contain the
makedirs call for the target, and for the parent whenever the parent was
missing, and contain no listing or per-file call - form an initial segment of
the run's events, so every listing call and per-file call of the run happens
only after both directories were created. -/
theorem mkdir_before_any_call (r : Remote) (env : Env)
    (folder_identifier local_path : String) (fs : FS) :
    ((ensure_dirs env fs local_path).ok = false →
      ∀ e ∈ (download_folder r env folder_identifier local_path fs).events,
        isListingOrFileCall e = false) ∧
    ((ensure_dirs env fs local_path).ok = true →
      (download_folder r env folder_identifier local_path fs).events.take
          (ensure_dirs env fs local_path).events.length =
        (ensure_dirs env fs local_path).events ∧
      (∀ e ∈ (ensure_dirs env fs local_path).events, isListingOrFileCall e = false) ∧
      Event.mkdirCall local_path ∈ (ensure_dirs env fs local_path).events ∧
      (pyDirname local_path ≠ "" → fs.dirs (pyDirname local_path) = false →
        Event.mkdirCall (pyDirname local_path) ∈ (ensure_dirs env fs local_path).events)) := by
  constructor
  · intro hfail e he
    rw [download_folder_fail r env folder_identifier local_path fs hfail] at he
    exact dirEvent_not_call
      (List.all_eq_true.mp (ensure_dirs_events_dirEvent env fs local_path) e he)
  · intro hok
    refine ⟨download_folder_dir_events_first r env folder_identifier local_path fs hok,
      ?_, ensure_dirs_ok_target_mkdir env fs local_path hok,
      fun h1 h2 => ensure_dirs_ok_parent_mkdir env fs local_path hok h1 h2⟩
    intro e he
    exact dirEvent_not_call
      (List.all_eq_true.mp (ensure_dirs_events_dirEvent env fs local_path) e he)

/-- C6 witness: with a missing parent, the concrete run issues makedirs calls
for both the parent and the target during directory setup. -/
theorem mkdir_before_any_call_witness :
    Event.mkdirCall "base/dest" ∈ (ensure_dirs envOk fsEmpty "base/dest").events ∧
    Event.mkdirCall (pyDirname "base/dest") ∈ (ensure_dirs envOk fsEmpty "base/dest").events := by
  have h := (mkdir_before_any_call rMixed envOk "myfolder" "base/dest" fsEmpty).2 (by decide)
  exact ⟨h.2.2.1, h.2.2.2 (by decide) (by decide)⟩

/-- C7 counterexample: a run over an empty listing does not return
SyncResult 0 0 - it produces no SyncResult at all. -/
theorem empty_listing_not_sync_zero :
    (download_folder rEmptyFolder envOk "Reports" "d" fsEmpty).summary ≠
      some ⟨0, 0⟩ := by
  decide

/-- C7 (amended): the three exit conditions are distinguishable through the
emitted messages, not through a returned value: directory-setup failure emits
a creation-failure message, folder-not-found emits its message, and an empty
listing emits the no-files message; each exit carries only its own marker and
produces no SyncResult, and the empty-listing exit is a no-op issuing no
per-file call. -/
theorem exit_conditions_distinct_messages (r : Remote) (env : Env)
    (folder_identifier local_path : String) (fs : FS) :
    ((ensure_dirs env fs local_path).ok = false →
      (download_folder r env folder_identifier local_path fs).summary = none ∧
      (Event.failedParentMsg ∈ (download_folder r env folder_identifier local_path fs).events ∨
        Event.failedTargetMsg ∈ (download_folder r env folder_identifier local_path fs).events) ∧
      (∀ n, Event.folderNotFoundMsg n ∉
        (download_folder r env folder_identifier local_path fs).events) ∧
      Event.noFilesMsg ∉ (download_folder r env folder_identifier local_path fs).events) ∧
    ((ensure_dirs env fs local_path).ok = true →
      resolvedFolderId r folder_identifier = none →
      (download_folder r env folder_identifier local_path fs).summary = none ∧
      Event.folderNotFoundMsg folder_identifier ∈
        (download_folder r env folder_identifier local_path fs).events ∧
      Event.failedParentMsg ∉ (download_folder r env folder_identifier local_path fs).events ∧
      Event.failedTargetMsg ∉ (download_folder r env folder_identifier local_path fs).events ∧
      Event.noFilesMsg ∉ (download_folder r env folder_identifier local_path fs).events) ∧
    (∀ folder_id, (ensure_dirs env fs local_path).ok = true →
      resolvedFolderId r folder_identifier = some folder_id →
      r.list_files_in_folder folder_id = [] →
      (download_folder r env folder_identifier local_path fs).summary = none ∧
      Event.noFilesMsg ∈ (download_folder r env folder_identifier local_path fs).events ∧
      Event.failedParentMsg ∉ (download_folder r env folder_identifier local_path fs).events ∧
      Event.failedTargetMsg ∉ (download_folder r env folder_identifier local_path fs).events ∧
      (∀ n, Event.folderNotFoundMsg n ∉
        (download_folder r env folder_identifier local_path fs).events) ∧
      (∀ e ∈ (download_folder r env folder_identifier local_path fs).events,
        isFileCall e = false)) := by
  refine ⟨?_, ?_, ?_⟩
  · intro hfail
    rw [download_folder_fail r env folder_identifier local_path fs hfail]
    refine ⟨rfl, ensure_dirs_fail_msg env fs local_path hfail, ?_, ?_⟩
    · intro n hmem
      exact absurd hmem (not_mem_of_all (ensure_dirs_events_dirEvent env fs local_path) rfl)
    · intro hmem
      exact absurd hmem (not_mem_of_all (ensure_dirs_events_dirEvent env fs local_path) rfl)
  · intro hok hres
    have hS : ¬ (folder_identifier.length = 33 ∧ pyIsAlnum folder_identifier = true) := by
      intro hS
      unfold resolvedFolderId at hres
      rw [if_pos hS] at hres
      exact Option.noConfusion hres
    have hg : r.get_folder_id folder_identifier = none := by
      unfold resolvedFolderId at hres
      rwa [if_neg hS] at hres
    rw [download_folder_ok_lookup_none r env folder_identifier local_path fs hok hS hg]
    refine ⟨rfl, by simp, ?_, ?_, ?_⟩
    · intro hmem
      simp at hmem
      exact absurd hmem (ensure_dirs_ok_no_fail_msgs env fs local_path hok).1
    · intro hmem
      simp at hmem
      exact absurd hmem (ensure_dirs_ok_no_fail_msgs env fs local_path hok).2
    · intro hmem
      simp at hmem
      exact absurd hmem (not_mem_of_all (ensure_dirs_events_dirEvent env fs local_path) rfl)
  · intro folder_id hok hres hnil
    by_cases hS : folder_identifier.length = 33 ∧ pyIsAlnum folder_identifier = true
    · have hfid : folder_id = folder_identifier := by
        unfold resolvedFolderId at hres
        rw [if_pos hS] at hres
        exact (Option.some.inj hres).symm
      subst hfid
      rw [download_folder_ok_shape r env folder_id local_path fs hok hS,
        list_and_download_empty r env local_path folder_id _ _ hnil]
      refine ⟨rfl, by simp, ?_, ?_, ?_, ?_⟩
      · intro hmem
        simp at hmem
        exact absurd hmem (ensure_dirs_ok_no_fail_msgs env fs local_path hok).1
      · intro hmem
        simp at hmem
        exact absurd hmem (ensure_dirs_ok_no_fail_msgs env fs local_path hok).2
      · intro n hmem
        simp at hmem
        exact absurd hmem (not_mem_of_all (ensure_dirs_events_dirEvent env fs local_path) rfl)
      · intro e he
        rw [List.mem_append] at he
        rcases he with he | he
        · exact dirEvent_not_fileCall
            (List.all_eq_true.mp (ensure_dirs_events_dirEvent env fs local_path) e he)
        · simp only [List.mem_cons, List.not_mem_nil, or_false] at he
          rcases he with rfl | rfl | rfl
          · rfl
          · rfl
          · rfl
    · have hg : r.get_folder_id folder_identifier = some folder_id := by
        unfold resolvedFolderId at hres
        rwa [if_neg hS] at hres
      rw [download_folder_ok_lookup_some r env folder_identifier local_path folder_id fs hok hS hg,
        list_and_download_empty r env local_path folder_id _ _ hnil]
      refine ⟨rfl, by simp, ?_, ?_, ?_, ?_⟩
      · intro hmem
        simp at hmem
        exact absurd hmem (ensure_dirs_ok_no_fail_msgs env fs local_path hok).1
      · intro hmem
        simp at hmem
        exact absurd hmem (ensure_dirs_ok_no_fail_msgs env fs local_path hok).2
      · intro n hmem
        simp at hmem
        exact absurd hmem (not_mem_of_all (ensure_dirs_events_dirEvent env fs local_path) rfl)
      · intro e he
        rw [List.append_assoc, List.mem_append] at he
        rcases he with he | he
        · exact dirEvent_not_fileCall
            (List.all_eq_true.mp (ensure_dirs_events_dirEvent env fs local_path) e he)
        · simp only [List.cons_append, List.nil_append, List.mem_cons,
            List.not_mem_nil, or_false] at he
          rcases he with rfl | rfl | rfl | rfl
          · rfl
          · rfl
          · rfl
          · rfl

/-- C7 amended-claim witness: the concrete empty-listing run emits the
no-files message and ends with no SyncResult. -/
theorem exit_conditions_distinct_messages_witness :
    (download_folder rEmptyFolder envOk "Reports" "d" fsEmpty).summary = none ∧
    Event.noFilesMsg ∈ (download_folder rEmptyFolder envOk "Reports" "d" fsEmpty).events := by
  have h := (exit_conditions_distinct_messages rEmptyFolder envOk "Reports" "d" fsEmpty).2.2
    "FID" (by decide) (by decide) (by decide)
  exact ⟨h.1, h.2.1⟩

/-- C2 counterexample: for a listing containing zero files the run exits
before the summary and produces no final SyncResult at all, so no SyncResult
with attempted equal to the listing length exists for that run. -/
theorem empty_listing_no_sync_result :
    rEmptyFolder.list_files_in_folder "FID" = [] ∧
    (download_folder rEmptyFolder envOk "Reports" "d" fsEmpty).summary = none := by
  decide

/-- C2 (amended): once directory setup succeeds and the identifier resolves,
an empty listing ends the run with no SyncResult produced, and a nonempty
listing of N files is processed so that every one of the N files is attempted
in listing order, the final summary is a SyncResult with attempted equal to N,
and succeeded is at most N. -/
theorem download_folder_counts (r : Remote) (env : Env)
    (folder_identifier local_path folder_id : String) (fs : FS)
    (hok : (ensure_dirs env fs local_path).ok = true)
    (hres : resolvedFolderId r folder_identifier = some folder_id) :
    (r.list_files_in_folder folder_id = [] →
      (download_folder r env folder_identifier local_path fs).summary = none) ∧
    (r.list_files_in_folder folder_id ≠ [] →
      ∃ k, (download_folder r env folder_identifier local_path fs).summary =
          some ⟨(r.list_files_in_folder folder_id).length, k⟩ ∧
        k ≤ (r.list_files_in_folder folder_id).length ∧
        progressNames (download_folder r env folder_identifier local_path fs).events =
          (r.list_files_in_folder folder_id).map RemoteFile.name) := by
  by_cases hS : folder_identifier.length = 33 ∧ pyIsAlnum folder_identifier = true
  · have hfid : folder_id = folder_identifier := by
      unfold resolvedFolderId at hres
      rw [if_pos hS] at hres
      exact (Option.some.inj hres).symm
    subst hfid
    rw [download_folder_ok_shape r env folder_id local_path fs hok hS]
    constructor
    · intro hnil
      rw [list_and_download_empty r env local_path folder_id _ _ hnil]
    · intro hne
      rw [list_and_download_cons r env local_path folder_id _ _ hne]
      refine ⟨(download_loop r env local_path (r.list_files_in_folder folder_id)
        (ensure_dirs env fs local_path).fs).count, rfl,
        download_loop_count_le r env local_path _ _, ?_⟩
      simp only [progressNames_append, ensure_dirs_progressNames,
        download_loop_progress]
      simp [progressNames, progressName?]
  · have hg : r.get_folder_id folder_identifier = some folder_id := by
      unfold resolvedFolderId at hres
      rwa [if_neg hS] at hres
    rw [download_folder_ok_lookup_some r env folder_identifier local_path folder_id fs hok hS hg]
    constructor
    · intro hnil
      rw [list_and_download_empty r env local_path folder_id _ _ hnil]
    · intro hne
      rw [list_and_download_cons r env local_path folder_id _ _ hne]
      refine ⟨(download_loop r env local_path (r.list_files_in_folder folder_id)
        (ensure_dirs env fs local_path).fs).count, rfl,
        download_loop_count_le r env local_path _ _, ?_⟩
      simp only [progressNames_append, ensure_dirs_progressNames,
        download_loop_progress]
      simp [progressNames, progressName?]

/-- C2 amended-claim witness: the concrete two-file run attempts both files in
order and reports 2 attempted. -/
theorem download_folder_counts_witness :
    ∃ k, (download_folder rTwoRaw envOk "Two" "d" fsEmpty).summary =
        some ⟨(rTwoRaw.list_files_in_folder "FID").length, k⟩ ∧
      k ≤ (rTwoRaw.list_files_in_folder "FID").length ∧
      progressNames (download_folder rTwoRaw envOk "Two" "d" fsEmpty).events =
        (rTwoRaw.list_files_in_folder "FID").map RemoteFile.name :=
  (download_folder_counts rTwoRaw envOk "Two" "d" "FID" fsEmpty
    (by decide) (by decide)).2 (by decide)

/-- C10 counterexample: a listing with two files both declared with name x but
of different native types writes them to two distinct destination paths, and
the earlier file's bytes survive the run: the destination does not hold only
the later file's content. -/
theorem same_name_divergent_paths :
    (rDup.list_files_in_folder "FID").map RemoteFile.name = ["x", "x"] ∧
    (download_folder rDup envOk "Dup" "d" fsEmpty).fs.files (Path.mk "d" "x.docx") =
      some [1] ∧
    (download_folder rDup envOk "Dup" "d" fsEmpty).fs.files (Path.mk "d" "x.xlsx") =
      some [2] ∧
    Path.mk "d" "x.docx" ≠ Path.mk "d" "x.xlsx" := by
  decide

/-- C10 (amended): the driver computes the same destination path for
same-named files, and when the two files also materialize to that same final
path - in particular when both are plain non-native files - the file processed
later overwrites the earlier one, so the final destination holds the later
file's bytes; when the export-extension rewrite diverges (different native
types) the files land on distinct paths instead. -/
theorem same_name_last_write_wins (r : Remote) (env : Env)
    (folder_identifier local_path folder_id : String) (fs : FS)
    (f1 f2 : RemoteFile) (m1 m2 : String) (b2 : List Nat)
    (hok : (ensure_dirs env fs local_path).ok = true)
    (hres : resolvedFolderId r folder_identifier = some folder_id)
    (hlist : r.list_files_in_folder folder_id = [f1, f2])
    (_hname : f1.name = f2.name)
    (_hm1 : r.files_get f1.id = some m1)
    (_hn1 : strStartsWith m1 "application/vnd.google-apps." = false)
    (hm2 : r.files_get f2.id = some m2)
    (hn2 : strStartsWith m2 "application/vnd.google-apps." = false)
    (hb2 : r.get_media f2.id = some b2)
    (hw : env.writeFails (Path.mk local_path f2.name) = false) :
    (download_folder r env folder_identifier local_path fs).fs.files
      (Path.mk local_path f2.name) = some b2 := by
  rw [download_folder_files r env folder_identifier local_path fs, if_pos hok]
  have hfw : folderWrites r env folder_identifier local_path =
      loopWrites r env local_path [f1, f2] := by
    unfold folderWrites
    rw [hres]
    dsimp only
    rw [hlist]
  rw [hfw]
  have h2w : (download_file r env f2.id f2.name (Path.mk local_path f2.name)).write =
      some (Path.mk local_path f2.name, b2) := by
    simp only [download_file, write_and_verify, hm2]
    rw [if_neg (by rw [hn2]; exact Bool.noConfusion)]
    simp [hb2, hw]
  simp only [loopWrites, List.filterMap_cons, List.filterMap_nil, h2w]
  generalize (download_file r env f1.id f1.name (Path.mk local_path f1.name)).write = w1
  cases w1 with
  | none => simp [applyWrites, applyWrite]
  | some pr => simp [applyWrites, applyWrite]

/-- C10 amended-claim witness: two concrete same-named plain files end with
the later file's bytes at the shared destination path. -/
theorem same_name_last_write_wins_witness :
    (download_folder rTwoRaw envOk "Two" "d" fsEmpty).fs.files (Path.mk "d" "f") =
      some [6] :=
  same_name_last_write_wins rTwoRaw envOk "Two" "d" "FID" fsEmpty
    ⟨"a1", "f", "text/plain", none⟩ ⟨"a2", "f", "text/plain", none⟩
    "text/plain" "text/plain" [6]
    (by decide) (by decide) (by decide) (by decide) (by decide) (by decide)
    (by decide) (by decide) (by decide) (by decide)

end GDrive
